import Mathlib

/-
  Verification development for the DomiSafe / piGuardian IoT controller
  (milestone2Final.py, piGuardianTest.py, environmental_module.py,
  security_module.py, device_control_module.py).

  The Python classes are shallowly embedded as Lean state machines and
  pure functions.  Threaded code (BuzzerController) is modelled as a
  trace of lock-protected atomic sections: every block executed under
  `self._lock` is one event.  The alarm entry point and the first lock
  section of its worker thread are merged into one `alarmBegin` event
  (the call site checks the flag and spawns the worker, whose first
  action under the lock sets the flag and asserts the output); the
  worker expiry path (the `finally` block) is the `alarmEnd` event.
-/

namespace Milestone2

/-! ## Buzzer controller (class BuzzerController) -/

/-- State of one BuzzerController instance.
  `toggle_on` is the field `_toggle_on`, `alarm_active` is `_alarm_active`,
  `output` is the physical pin/PWM assertion (True = sounding),
  `workers` counts alarm worker threads that have started and not yet
  run their expiry path. -/
structure BuzzerState where
  toggle_on : Bool
  alarm_active : Bool
  output : Bool
  workers : Nat
deriving Repr, DecidableEq

/-- Initial state after `__init__`: both flags False, output de-asserted. -/
def initBuzzer : BuzzerState := ⟨false, false, false, 0⟩

/-- Lower-casing of a payload string, `payload.lower()`: each character
  is lowered with the standard ASCII-range case map (the payload tokens
  the router compares against are ASCII). -/
def toLowerStr (s : String) : String := ⟨s.data.map Char.toLower⟩

/-- Payload decoding used by the command router:
  `payload.lower() in ("on", "1", "true", "high")`. -/
def decode_truthy (p : String) : Bool :=
  ["on", "1", "true", "high"].contains (toLowerStr p)

/-- Events on one buzzer instance, at the granularity of lock sections.
  `toggle p` is a toggle-mode command with payload `p` (dispatching to
  `set_on()` when truthy, `set_off()` otherwise); `alarmBegin` is an
  `alarm(d)` call together with the started worker asserting the output;
  `alarmEnd` is a worker expiring (its `finally` block). -/
inductive BuzzerOp where
  | toggle (payload : String)
  | alarmBegin
  | alarmEnd
deriving Repr, DecidableEq

/-- `set_on()`: set `_toggle_on`, clear `_alarm_active`, drive output high. -/
def setOnS (s : BuzzerState) : BuzzerState :=
  { s with toggle_on := true, alarm_active := false, output := true }

/-- `set_off()`: clear both flags, drive output low. -/
def setOffS (s : BuzzerState) : BuzzerState :=
  { s with toggle_on := false, alarm_active := false, output := false }

/-- One event step.  The second component is the Boolean result of an
  `alarm()` call (`some true` accepted, `some false` rejected),
  `none` for the other events.  `alarm()` rejects exactly when
  `_alarm_active` is set; an accepted alarm sets the flag, asserts the
  output and adds a running worker.  A worker expiry clears the flag,
  removes the worker, and de-asserts the output only when `_toggle_on`
  is not set. -/
def stepB (s : BuzzerState) : BuzzerOp → BuzzerState × Option Bool
  | .toggle p => (if decode_truthy p then setOnS s else setOffS s, none)
  | .alarmBegin =>
      if s.alarm_active then (s, some false)
      else ({ s with alarm_active := true, output := true,
                     workers := s.workers + 1 }, some true)
  | .alarmEnd =>
      ({ s with alarm_active := false, workers := s.workers - 1,
                output := if s.toggle_on then s.output else false }, none)

/-- Run a trace of events from a state. -/
def runB (s : BuzzerState) : List BuzzerOp → BuzzerState
  | [] => s
  | op :: rest => runB (stepB s op).1 rest

/-- The list of `alarm()` results along a trace. -/
def resultsB (s : BuzzerState) : List BuzzerOp → List (Option Bool)
  | [] => []
  | op :: rest => (stepB s op).2 :: resultsB (stepB s op).1 rest

/-- Decoded value of the last toggle command of a trace
  (`dflt` when the trace has no toggle command). -/
def lastToggleD (dflt : Bool) : List BuzzerOp → Bool
  | [] => dflt
  | .toggle p :: rest => lastToggleD (decode_truthy p) rest
  | .alarmBegin :: rest => lastToggleD dflt rest
  | .alarmEnd :: rest => lastToggleD dflt rest

/-- Reachability invariant of the buzzer state machine:
  when the toggle flag is set the output is asserted, and when the
  toggle flag is clear and no alarm worker is running the output is
  de-asserted. -/
def GoodB (s : BuzzerState) : Prop :=
  (s.toggle_on = true → s.output = true) ∧
  (s.toggle_on = false → s.workers = 0 → s.output = false)

theorem stepB_good (s : BuzzerState) (op : BuzzerOp) (h : GoodB s) :
    GoodB (stepB s op).1 := by
  obtain ⟨h1, h2⟩ := h
  cases op with
  | toggle p =>
      by_cases hp : decode_truthy p = true
      · simp [stepB, setOnS, hp, GoodB]
      · simp at hp
        simp [stepB, setOffS, hp, GoodB]
  | alarmBegin =>
      by_cases ha : s.alarm_active = true
      · simpa [stepB, ha, GoodB] using ⟨h1, h2⟩
      · simp at ha
        simp [stepB, ha, GoodB, h1]
  | alarmEnd =>
      by_cases ht : s.toggle_on = true
      · simp [stepB, ht, GoodB, h1 ht]
      · simp at ht
        simp [stepB, ht, GoodB]

theorem runB_good (ops : List BuzzerOp) (s : BuzzerState) (h : GoodB s) :
    GoodB (runB s ops) := by
  induction ops generalizing s with
  | nil => simpa [runB] using h
  | cons op rest ih => exact ih _ (stepB_good s op h)

theorem runB_toggle (ops : List BuzzerOp) (s : BuzzerState) :
    (runB s ops).toggle_on = lastToggleD s.toggle_on ops := by
  induction ops generalizing s with
  | nil => rfl
  | cons op rest ih =>
      cases op with
      | toggle p =>
          by_cases hp : decode_truthy p = true <;>
            simp [runB, stepB, lastToggleD, setOnS, setOffS, hp, ih]
      | alarmBegin =>
          by_cases ha : s.alarm_active = true <;>
            simp [runB, stepB, lastToggleD, ha, ih]
      | alarmEnd => simp [runB, stepB, lastToggleD, ih]

/-- C1: counterexample.  On the trace alarm, set_off, alarm, the second
  alarm call is issued while the first alarm is still within its
  duration (its worker has not run the expiry path: two workers are
  running at the end), yet it returns True instead of False, because
  set_off cleared the `_alarm_active` flag. -/
theorem alarm_second_call_accepted_after_toggle :
    resultsB initBuzzer
        [BuzzerOp.alarmBegin, BuzzerOp.toggle "off", BuzzerOp.alarmBegin]
      = [some true, none, some true]
    ∧ (runB initBuzzer
        [BuzzerOp.alarmBegin, BuzzerOp.toggle "off", BuzzerOp.alarmBegin]).workers
      = 2 := by
  decide

/-- C1 (amended): while the alarm-active flag is set and no set_on,
  set_off or worker expiry intervenes, every further alarm call returns
  False and leaves the state unchanged (the rejected call is not
  queued).  The exclusion does not survive interleaved set_on/set_off
  calls, which clear the alarm-active flag. -/
theorem alarm_rejected_while_active (s : BuzzerState) (ops : List BuzzerOp)
    (hact : s.alarm_active = true)
    (hops : ∀ op ∈ ops, op = BuzzerOp.alarmBegin) :
    resultsB s ops = ops.map (fun _ => some false) ∧ runB s ops = s := by
  induction ops with
  | nil => exact ⟨rfl, rfl⟩
  | cons op rest ih =>
      have hop : op = BuzzerOp.alarmBegin := hops op (by simp)
      subst hop
      have hrest : ∀ op ∈ rest, op = BuzzerOp.alarmBegin := by
        intro op hmem
        exact hops op (by simp [hmem])
      have hih := ih hrest
      constructor
      · simpa [resultsB, stepB, hact] using hih.1
      · simpa [runB, stepB, hact] using hih.2

/-- C1 amended, witness: from the state reached by one accepted alarm,
  two further alarm calls are both rejected and change nothing. -/
theorem alarm_rejected_while_active_witness :
    resultsB (runB initBuzzer [BuzzerOp.alarmBegin])
        [BuzzerOp.alarmBegin, BuzzerOp.alarmBegin]
      = [some false, some false]
    ∧ runB (runB initBuzzer [BuzzerOp.alarmBegin])
        [BuzzerOp.alarmBegin, BuzzerOp.alarmBegin]
      = runB initBuzzer [BuzzerOp.alarmBegin] := by
  have h := alarm_rejected_while_active (runB initBuzzer [BuzzerOp.alarmBegin])
      [BuzzerOp.alarmBegin, BuzzerOp.alarmBegin] (by decide)
      (by intro op hmem; simp at hmem; exact hmem)
  exact ⟨by simpa using h.1, h.2⟩

/-- C2: a set_on issued while a momentary alarm is active keeps the
  output asserted after the alarm worker expires; the expiry path
  de-asserts the output only when the toggle flag is not set, and
  leaves it untouched when the toggle flag is set. -/
theorem set_on_mid_alarm_keeps_output (s : BuzzerState)
    (_hact : s.alarm_active = true) :
    (stepB (stepB s (BuzzerOp.toggle "on")).1 BuzzerOp.alarmEnd).1.output = true
    ∧ (∀ t : BuzzerState, t.toggle_on = true →
        (stepB t BuzzerOp.alarmEnd).1.output = t.output)
    ∧ (∀ t : BuzzerState, t.toggle_on = false →
        (stepB t BuzzerOp.alarmEnd).1.output = false) := by
  have hd : decode_truthy "on" = true := by decide
  refine ⟨?_, ?_, ?_⟩
  · simp [stepB, hd, setOnS]
  · intro t ht; simp [stepB, ht]
  · intro t ht; simp [stepB, ht]

/-- C2 witness: concrete run with an active alarm. -/
theorem set_on_mid_alarm_keeps_output_witness :
    (stepB (stepB (runB initBuzzer [BuzzerOp.alarmBegin])
        (BuzzerOp.toggle "on")).1 BuzzerOp.alarmEnd).1.output = true := by
  exact (set_on_mid_alarm_keeps_output (runB initBuzzer [BuzzerOp.alarmBegin])
    (by decide)).1

/-- C5: after any trace of toggle commands and momentary alarms in
  which every started alarm worker has expired, the toggle flag and the
  physical output both equal the decoded value of the last delivered
  toggle command (False when no toggle command was delivered). -/
theorem toggle_state_equals_last_command (ops : List BuzzerOp)
    (hw : (runB initBuzzer ops).workers = 0) :
    (runB initBuzzer ops).toggle_on = lastToggleD false ops
    ∧ (runB initBuzzer ops).output = lastToggleD false ops := by
  have hg := runB_good ops initBuzzer (by exact ⟨by simp [initBuzzer], fun _ _ => rfl⟩)
  have ht : (runB initBuzzer ops).toggle_on = lastToggleD false ops :=
    runB_toggle ops initBuzzer
  refine ⟨ht, ?_⟩
  obtain ⟨h1, h2⟩ := hg
  by_cases hb : (runB initBuzzer ops).toggle_on = true
  · rw [← ht, hb, h1 hb]
  · simp at hb
    rw [← ht, hb, h2 hb hw]

/-- C5 witness: a concrete trace where alarms are interleaved with
  toggle commands and have all expired; the final output equals the
  decoded last command OFF. -/
theorem toggle_state_equals_last_command_witness :
    (runB initBuzzer
        [BuzzerOp.toggle "1", BuzzerOp.alarmBegin, BuzzerOp.toggle "OFF",
         BuzzerOp.alarmBegin, BuzzerOp.alarmEnd, BuzzerOp.alarmEnd]).workers = 0
    ∧ (runB initBuzzer
        [BuzzerOp.toggle "1", BuzzerOp.alarmBegin, BuzzerOp.toggle "OFF",
         BuzzerOp.alarmBegin, BuzzerOp.alarmEnd, BuzzerOp.alarmEnd]).output
      = false := by
  refine ⟨by decide, ?_⟩
  have h := (toggle_state_equals_last_command
      [BuzzerOp.toggle "1", BuzzerOp.alarmBegin, BuzzerOp.toggle "OFF",
       BuzzerOp.alarmBegin, BuzzerOp.alarmEnd, BuzzerOp.alarmEnd] (by decide)).2
  exact h.trans (by decide)

/-! ## Command router (DomiSafeAll._on_message / PiGuardianAll._on_message) -/

/-- `topic.endswith(feed)`, on the underlying character lists. -/
def endswith (topic feed : String) : Bool :=
  List.isSuffixOf feed.data topic.data

/-- `payload.replace("\r", "")` used by the LCD branch. -/
def stripCR (s : String) : String := ⟨s.data.filter (fun c => c ≠ '\r')⟩

/-- Channel configuration of the router: the buzzer feed, the LED
  feeds in dict iteration (insertion) order, and the LCD feed. -/
structure RouterCfg where
  buzzer_feed : String
  led_feeds : List (String × String)
  lcd_feed : String
deriving Repr, DecidableEq

/-- The handler an inbound message is dispatched to. -/
inductive Dispatch where
  | buzzer (value : Bool)
  | led (name : String) (value : Bool)
  | lcd (text : String)
  | dropped
deriving Repr, DecidableEq

/-- The `for name, feed in self.led_feeds.items()` loop: the first LED
  channel whose feed is a suffix of the topic. -/
def findLed (topic : String) : List (String × String) → Option String
  | [] => none
  | (name, feed) :: rest =>
      if endswith topic feed then some name else findLed topic rest

/-- The `_on_message` routing logic: buzzer feed checked first, then
  each LED feed in order, then the LCD feed; each branch returns,
  so at most one handler runs; no match falls through to no handler. -/
def route (cfg : RouterCfg) (topic payload : String) : Dispatch :=
  if endswith topic cfg.buzzer_feed then Dispatch.buzzer (decode_truthy payload)
  else
    match findLed topic cfg.led_feeds with
    | some name => Dispatch.led name (decode_truthy payload)
    | none =>
        if endswith topic cfg.lcd_feed then Dispatch.lcd (stripCR payload)
        else Dispatch.dropped

theorem findLed_first (topic : String) (pre : List (String × String))
    (name feed : String) (post : List (String × String))
    (hpre : ∀ q ∈ pre, endswith topic q.2 = false)
    (hmatch : endswith topic feed = true) :
    findLed topic (pre ++ (name, feed) :: post) = some name := by
  induction pre with
  | nil => simp [findLed, hmatch]
  | cons q rest ih =>
      have hq : endswith topic q.2 = false := hpre q (by simp)
      have hrest : ∀ p ∈ rest, endswith topic p.2 = false := by
        intro p hmem
        exact hpre p (by simp [hmem])
      cases q with
      | mk qn qf => simpa [findLed, hq] using ih hrest

theorem findLed_none (topic : String) (l : List (String × String))
    (h : ∀ q ∈ l, endswith topic q.2 = false) :
    findLed topic l = none := by
  induction l with
  | nil => rfl
  | cons q rest ih =>
      have hq : endswith topic q.2 = false := h q (by simp)
      have hrest : ∀ p ∈ rest, endswith topic p.2 = false := by
        intro p hmem
        exact h p (by simp [hmem])
      cases q with
      | mk qn qf => simpa [findLed, hq] using ih hrest

/-- C4: the router checks the buzzer feed first, then each configured
  LED feed in order (first match wins, later feeds not considered),
  then the LCD feed, and dispatches to exactly one handler; a message
  matching no configured feed is dropped (the routing function is
  total, so no error is raised). -/
theorem route_priority_first_match (cfg : RouterCfg) (topic payload : String) :
    (endswith topic cfg.buzzer_feed = true →
      route cfg topic payload = Dispatch.buzzer (decode_truthy payload))
    ∧ (endswith topic cfg.buzzer_feed = false →
        ∀ pre name feed post, cfg.led_feeds = pre ++ (name, feed) :: post →
          (∀ q ∈ pre, endswith topic q.2 = false) →
          endswith topic feed = true →
          route cfg topic payload = Dispatch.led name (decode_truthy payload))
    ∧ (endswith topic cfg.buzzer_feed = false →
        (∀ q ∈ cfg.led_feeds, endswith topic q.2 = false) →
        endswith topic cfg.lcd_feed = true →
        route cfg topic payload = Dispatch.lcd (stripCR payload))
    ∧ (endswith topic cfg.buzzer_feed = false →
        (∀ q ∈ cfg.led_feeds, endswith topic q.2 = false) →
        endswith topic cfg.lcd_feed = false →
        route cfg topic payload = Dispatch.dropped) := by
  refine ⟨?_, ?_, ?_, ?_⟩
  · intro hb
    simp [route, hb]
  · intro hb pre name feed post hsplit hpre hmatch
    simp [route, hb, hsplit, findLed_first topic pre name feed post hpre hmatch]
  · intro hb hleds hlcd
    simp [route, hb, findLed_none topic cfg.led_feeds hleds, hlcd]
  · intro hb hleds hlcd
    simp [route, hb, findLed_none topic cfg.led_feeds hleds, hlcd]

/-- C4 witness: with the default feed configuration, a buzzer-feed
  message goes to the buzzer handler even though another feed could
  also match later, the second LED feed is reached only after the
  first fails, and an unknown feed is dropped. -/
theorem route_priority_first_match_witness :
    route ⟨"buzzer_control", [("yellow", "led_yellow"), ("red", "led_red")],
        "LCD_display"⟩ "user/feeds/buzzer_control" "ON"
      = Dispatch.buzzer true
    ∧ route ⟨"buzzer_control", [("yellow", "led_yellow"), ("red", "led_red")],
        "LCD_display"⟩ "user/feeds/led_red" "off"
      = Dispatch.led "red" false
    ∧ route ⟨"buzzer_control", [("yellow", "led_yellow"), ("red", "led_red")],
        "LCD_display"⟩ "user/feeds/nothing" "hello"
      = Dispatch.dropped := by
  refine ⟨?_, ?_, ?_⟩
  · have h := (route_priority_first_match
        ⟨"buzzer_control", [("yellow", "led_yellow"), ("red", "led_red")],
          "LCD_display"⟩ "user/feeds/buzzer_control" "ON").1 (by decide)
    exact h.trans (by decide)
  · have h := (route_priority_first_match
        ⟨"buzzer_control", [("yellow", "led_yellow"), ("red", "led_red")],
          "LCD_display"⟩ "user/feeds/led_red" "off").2.1 (by decide)
        [("yellow", "led_yellow")] "red" "led_red" [] rfl (by decide) (by decide)
    exact h.trans (by decide)
  · exact (route_priority_first_match
        ⟨"buzzer_control", [("yellow", "led_yellow"), ("red", "led_red")],
          "LCD_display"⟩ "user/feeds/nothing" "hello").2.2.2 (by decide)
        (by decide) (by decide)

/-! ## LED bank (class LedBank) -/

/-- Configuration of the LED bank: channel name to BCM pin, in
  insertion order. -/
structure LedBank where
  mapping : List (String × Nat)
deriving Repr, DecidableEq

/-- `LedBank.set(name, on)`: `self.mapping.get(name)`; on a missing
  key it returns immediately, otherwise it drives the pin.  The first
  component is the pin-level map after the call, the second the output
  actually driven (`none` when no GPIO write happened). -/
def led_set (bank : LedBank) (pins : Nat → Bool) (name : String) (value : Bool) :
    (Nat → Bool) × Option (Nat × Bool) :=
  match bank.mapping.lookup name with
  | none => (pins, none)
  | some pin => (fun q => if q = pin then value else pins q, some (pin, value))

theorem lookup_eq_none_of_not_mem (l : List (String × Nat)) (name : String)
    (h : ∀ q ∈ l, q.1 ≠ name) : l.lookup name = none := by
  induction l with
  | nil => rfl
  | cons q rest ih =>
      have hq : q.1 ≠ name := h q (by simp)
      have hrest : ∀ p ∈ rest, p.1 ≠ name := by
        intro p hmem
        exact h p (by simp [hmem])
      cases q with
      | mk qn qp =>
          simp at hq
          have hbeq : (name == qn) = false :=
            beq_eq_false_iff_ne.mpr (fun he => hq he.symm)
          rw [show ((qn, qp) :: rest).lookup name = rest.lookup name by
                simp [List.lookup, hbeq]]
          exact ih hrest

/-- C8: for a channel name not present in the configured mapping,
  `set(name, on)` changes no pin state and drives no output, for
  either value of `on`; the function is total, so it does not raise. -/
theorem led_set_unknown_name_noop (bank : LedBank) (pins : Nat → Bool)
    (name : String) (value : Bool)
    (h : ∀ q ∈ bank.mapping, q.1 ≠ name) :
    led_set bank pins name value = (pins, none) := by
  simp [led_set, lookup_eq_none_of_not_mem bank.mapping name h]

/-- C8 witness: the default mapping has no channel named blue; setting
  it (both on and off) is a no-op. -/
theorem led_set_unknown_name_noop_witness :
    led_set ⟨[("yellow", 16), ("red", 20), ("green", 21)]⟩
        (fun _ => false) "blue" true = (fun _ => false, none)
    ∧ led_set ⟨[("yellow", 16), ("red", 20), ("green", 21)]⟩
        (fun _ => false) "blue" false = (fun _ => false, none) := by
  constructor
  · exact led_set_unknown_name_noop ⟨[("yellow", 16), ("red", 20), ("green", 21)]⟩
      (fun _ => false) "blue" true (by decide)
  · exact led_set_unknown_name_noop ⟨[("yellow", 16), ("red", 20), ("green", 21)]⟩
      (fun _ => false) "blue" false (by decide)

/-! ## Alert cooldown (security_module._cooldown_active / send_smtp2go_alert) -/

/-- Cooldown book-keeping of one security_module instance:
  `_last_alert_time` (alert type to the time of the last successful
  send, `.get(alert_type, 0)` semantics) and `_alert_cooldown` in
  seconds.  Times are modelled as integers. -/
structure AlertState where
  last_alert : List (String × Int)
  cooldown : Int
deriving Repr, DecidableEq

/-- `self._last_alert_time.get(alert_type, 0)`. -/
def lookupLastAlert (l : List (String × Int)) (typ : String) : Int :=
  match l.lookup typ with
  | some t => t
  | none => 0

/-- `_cooldown_active`: `(now - last) < self._alert_cooldown`. -/
def cooldown_active (st : AlertState) (typ : String) (now : Int) : Bool :=
  decide (now - lookupLastAlert st.last_alert typ < st.cooldown)

/-- Result of one `send_smtp2go_alert` call: the updated cooldown
  state, whether the call got past the cooldown gate (`attempted`),
  and its return value (`sent`). -/
structure SendOutcome where
  state : AlertState
  attempted : Bool
  sent : Bool
deriving Repr, DecidableEq

/-- `send_smtp2go_alert(alert_type, ...)` at time `now`:
  return False at once when the cooldown is active; otherwise attempt
  the send.  `config_ok` models `all([...])` over the SMTP settings
  and `smtp_ok` models the SMTP session completing without exception;
  only a completed send records `now` as the last alert time and
  returns True. -/
def send_smtp2go_alert (st : AlertState) (typ : String) (now : Int)
    (config_ok smtp_ok : Bool) : SendOutcome :=
  if cooldown_active st typ now then ⟨st, false, false⟩
  else if config_ok then
    if smtp_ok then ⟨⟨(typ, now) :: st.last_alert, st.cooldown⟩, true, true⟩
    else ⟨st, true, false⟩
  else ⟨st, true, false⟩

/-- C3: once an alert of a given type fires (a send returns True) at
  time t1, a second event of that type at time t2 with t2 - t1 below
  the cooldown is skipped by the cooldown gate (no attempt, returns
  False, state unchanged), so the pair produces exactly one attempt;
  with t2 - t1 above the cooldown the second event also gets past the
  gate, so the pair produces two attempts. -/
theorem alert_cooldown_window (st : AlertState) (typ : String) (t1 t2 : Int)
    (c1 s1 c2 s2 : Bool)
    (hfire : (send_smtp2go_alert st typ t1 c1 s1).sent = true) :
    (t2 - t1 < st.cooldown →
      send_smtp2go_alert (send_smtp2go_alert st typ t1 c1 s1).state typ t2 c2 s2
        = ⟨(send_smtp2go_alert st typ t1 c1 s1).state, false, false⟩)
    ∧ (st.cooldown < t2 - t1 →
      (send_smtp2go_alert (send_smtp2go_alert st typ t1 c1 s1).state
          typ t2 c2 s2).attempted = true) := by
  by_cases hcd : cooldown_active st typ t1 = true
  · simp [send_smtp2go_alert, hcd] at hfire
  · simp at hcd
    cases c1 with
    | false => simp [send_smtp2go_alert, hcd] at hfire
    | true =>
        cases s1 with
        | false => simp [send_smtp2go_alert, hcd] at hfire
        | true =>
            have hst : (send_smtp2go_alert st typ t1 true true).state
                = ⟨(typ, t1) :: st.last_alert, st.cooldown⟩ := by
              simp [send_smtp2go_alert, hcd]
            have hlast : lookupLastAlert ((typ, t1) :: st.last_alert) typ = t1 := by
              simp [lookupLastAlert, List.lookup]
            constructor
            · intro hlt
              have hact : cooldown_active ⟨(typ, t1) :: st.last_alert, st.cooldown⟩
                  typ t2 = true := by
                simp [cooldown_active, hlast]
                exact hlt
              rw [hst]
              simp [send_smtp2go_alert, hact]
            · intro hgt
              have hact : cooldown_active ⟨(typ, t1) :: st.last_alert, st.cooldown⟩
                  typ t2 = false := by
                simp [cooldown_active, hlast]
                omega
              rw [hst]
              cases c2 <;> cases s2 <;> simp [send_smtp2go_alert, hact]

/-- C3 witness: cooldown 300 s; a send fires at t=1000, a second event
  at t=1100 is skipped, while from the same fired state an event at
  t=1400 gets past the gate. -/
theorem alert_cooldown_window_witness :
    send_smtp2go_alert (send_smtp2go_alert ⟨[], 300⟩ "Motion Detected" 1000
        true true).state "Motion Detected" 1100 true true
      = ⟨(send_smtp2go_alert ⟨[], 300⟩ "Motion Detected" 1000 true true).state,
         false, false⟩
    ∧ (send_smtp2go_alert (send_smtp2go_alert ⟨[], 300⟩ "Motion Detected" 1000
        true true).state "Motion Detected" 1400 true true).attempted = true := by
  constructor
  · exact (alert_cooldown_window ⟨[], 300⟩ "Motion Detected" 1000 1100
      true true true true (by decide)).1 (by decide)
  · exact (alert_cooldown_window ⟨[], 300⟩ "Motion Detected" 1000 1400
      true true true true (by decide)).2 (by decide)

/-! ## Environmental adapter (environmental_module.get_environmental_data) -/

/-- A successful environmental reading:
  `{timestamp, temperature, humidity}`. -/
structure EnvReading where
  timestamp : String
  temperature : ℚ
  humidity : ℚ
deriving Repr, DecidableEq

/-- `_read_dht_once`: one raw read, raising when either value is None. -/
def read_dht_once (raw : Option ℚ × Option ℚ) : Except String (ℚ × ℚ) :=
  match raw with
  | (some t, some h) => Except.ok (t, h)
  | _ => Except.error "DHT returned None (sensor not ready)"

/-- Whether one raw read fails. -/
def dhtFails (raw : Option ℚ × Option ℚ) : Bool :=
  match read_dht_once raw with
  | Except.ok _ => false
  | Except.error _ => true

/-- The `for _ in range(self.max_retries)` loop of
  `get_environmental_data`, with the remaining attempt count as fuel:
  on success return the reading dict at once; on failure sleep
  `retry_delay_s` and try the next raw read; when the attempts are
  exhausted raise.  The second component is the list of sleeps
  performed. -/
def env_try (ts : String) (delay : ℚ) (raws : Nat → Option ℚ × Option ℚ)
    (i : Nat) : Nat → Except String EnvReading × List ℚ
  | 0 => (Except.error "Failed to read DHT11 after retries", [])
  | Nat.succ k =>
      match read_dht_once (raws i) with
      | Except.ok (t, h) => (Except.ok ⟨ts, t, h⟩, [])
      | Except.error _ =>
          let r := env_try ts delay raws (i + 1) k
          (r.1, delay :: r.2)

/-- `get_environmental_data`: run up to `max_retries` raw reads. -/
def get_environmental_data (ts : String) (delay : ℚ) (max_retries : Nat)
    (raws : Nat → Option ℚ × Option ℚ) : Except String EnvReading × List ℚ :=
  env_try ts delay raws 0 max_retries

theorem env_try_all_fail (ts : String) (delay : ℚ)
    (raws : Nat → Option ℚ × Option ℚ) (n i : Nat)
    (h : ∀ j, j < n → dhtFails (raws (i + j)) = true) :
    env_try ts delay raws i n
      = (Except.error "Failed to read DHT11 after retries",
         List.replicate n delay) := by
  induction n generalizing i with
  | zero => rfl
  | succ k ih =>
      have h0 : dhtFails (raws i) = true := by
        simpa using h 0 (Nat.succ_pos k)
      have hrec := ih (i + 1) (fun j hj => by
        have := h (j + 1) (Nat.succ_lt_succ hj)
        simpa [Nat.add_assoc, Nat.add_comm 1 j] using this)
      cases hraw : read_dht_once (raws i) with
      | ok v => simp [dhtFails, hraw] at h0
      | error e =>
          simp [env_try, hraw, hrec, List.replicate]

theorem env_try_success (ts : String) (delay : ℚ)
    (raws : Nat → Option ℚ × Option ℚ) (k : Nat) :
    ∀ n i t h, k < n → (∀ j, j < k → dhtFails (raws (i + j)) = true) →
      read_dht_once (raws (i + k)) = Except.ok (t, h) →
      env_try ts delay raws i n
        = (Except.ok ⟨ts, t, h⟩, List.replicate k delay) := by
  induction k with
  | zero =>
      intro n i t h hn _ hok
      cases n with
      | zero => cases hn
      | succ m =>
          simp at hok
          simp [env_try, hok]
  | succ k ih =>
      intro n i t h hn hfail hok
      cases n with
      | zero => cases hn
      | succ m =>
          have h0 : dhtFails (raws i) = true := by
            simpa using hfail 0 (Nat.succ_pos k)
          have hrec := ih m (i + 1) t h (Nat.lt_of_succ_lt_succ hn)
            (fun j hj => by
              have := hfail (j + 1) (Nat.succ_lt_succ hj)
              simpa [Nat.add_assoc, Nat.add_comm 1 j] using this)
            (by
              have : i + 1 + k = i + (k + 1) := by omega
              rw [this]
              exact hok)
          cases hraw : read_dht_once (raws i) with
          | ok v => simp [dhtFails, hraw] at h0
          | error e => simp [env_try, hraw, hrec, List.replicate]

/-- C6: when every one of the `max_retries` raw reads fails,
  `get_environmental_data` raises (returns an error, never a
  fabricated reading) after sleeping the fixed retry delay after each
  failed attempt; when the first success is attempt k (k below the
  retry bound, all earlier attempts failing), it returns a reading
  carrying the timestamp, temperature and humidity, after k delays. -/
theorem env_data_retry_policy (ts : String) (delay : ℚ) (max_retries : Nat)
    (raws : Nat → Option ℚ × Option ℚ) :
    ((∀ j, j < max_retries → dhtFails (raws j) = true) →
      get_environmental_data ts delay max_retries raws
        = (Except.error "Failed to read DHT11 after retries",
           List.replicate max_retries delay))
    ∧ (∀ k t h, k < max_retries → (∀ j, j < k → dhtFails (raws j) = true) →
        read_dht_once (raws k) = Except.ok (t, h) →
        get_environmental_data ts delay max_retries raws
          = (Except.ok ⟨ts, t, h⟩, List.replicate k delay)) := by
  constructor
  · intro hall
    exact env_try_all_fail ts delay raws max_retries 0
      (fun j hj => by simpa using hall j hj)
  · intro k t h hk hfail hok
    exact env_try_success ts delay raws k max_retries 0 t h hk
      (fun j hj => by simpa using hfail j hj)
      (by simpa using hok)

/-- C6 witness: with 5 attempts, a sensor failing every read raises
  after five fixed delays, and a sensor succeeding on the third read
  returns that reading after two delays. -/
theorem env_data_retry_policy_witness :
    get_environmental_data "t0" (1 / 2) 5 (fun _ => (none, none))
      = (Except.error "Failed to read DHT11 after retries",
         List.replicate 5 (1 / 2))
    ∧ get_environmental_data "t0" (1 / 2) 5
        (fun j => if j = 2 then (some 22, some 55) else (none, none))
      = (Except.ok ⟨"t0", 22, 55⟩, List.replicate 2 (1 / 2)) := by
  constructor
  · exact (env_data_retry_policy "t0" (1 / 2) 5 (fun _ => (none, none))).1
      (fun j hj => by
        have hj5 : j = 0 ∨ j = 1 ∨ j = 2 ∨ j = 3 ∨ j = 4 := by omega
        rcases hj5 with rfl | rfl | rfl | rfl | rfl <;> decide)
  · exact (env_data_retry_policy "t0" (1 / 2) 5
      (fun j => if j = 2 then (some 22, some 55) else (none, none))).2
      2 22 55 (by decide)
      (fun j hj => by
        have hj2 : j = 0 ∨ j = 1 := by omega
        rcases hj2 with rfl | rfl <;> decide)
      (by rfl)

/-! ## Actuator cleanup (BuzzerController.cleanup) -/

/-- Physical buzzer resources: whether PWM is running and whether the
  pin is driven high. -/
structure BuzzerHw where
  pwm_running : Bool
  pin_high : Bool
deriving Repr, DecidableEq

/-- `GPIO.output(self.pin, GPIO.LOW)`, which may raise when the GPIO
  subsystem is unavailable (for example after `GPIO.cleanup()` during
  abnormal shutdown); `hw_ok` selects which. -/
def pinWriteLow (hw_ok : Bool) (s : BuzzerHw) : Except String BuzzerHw :=
  if hw_ok then Except.ok { s with pin_high := false }
  else Except.error "GPIO write failed"

/-- `cleanup()`: stop PWM (its own try/except swallows errors), drive
  the pin low, and swallow any exception (`except Exception: pass`),
  so the function is total and never raises. -/
def cleanup (hw_ok : Bool) (s : BuzzerHw) : BuzzerHw :=
  let s1 : BuzzerHw := { s with pwm_running := false }
  match pinWriteLow hw_ok s1 with
  | Except.ok s2 => s2
  | Except.error _ => s1

/-- C7: any number n of consecutive `cleanup()` calls with working
  hardware ends in the same state, with the output de-asserted; and a
  repeated `cleanup()` is always a no-op after the first, whether or
  not the GPIO write succeeds.  `cleanup` is a total function, so no
  call raises. -/
theorem cleanup_idempotent_deasserted (n : Nat) (s : BuzzerHw) (hn : 1 ≤ n) :
    (cleanup true)^[n] s = ⟨false, false⟩
    ∧ ∀ b t, cleanup b (cleanup b t) = cleanup b t := by
  constructor
  · obtain ⟨m, rfl⟩ : ∃ m, n = m + 1 := ⟨n - 1, by omega⟩
    rw [Function.iterate_succ_apply']
    rfl
  · intro b t
    cases b <;> rfl

/-- C7 witness: three consecutive cleanups from a fully asserted state
  end de-asserted. -/
theorem cleanup_idempotent_deasserted_witness :
    (cleanup true)^[3] ⟨true, true⟩ = ⟨false, false⟩ := by
  exact (cleanup_idempotent_deasserted 3 ⟨true, true⟩ (by decide)).1

/-! ## Device status sync (device_control_module.generate_device_status) -/

/-- One device-status entry: `{timestamp, device_name, status}`. -/
structure DeviceStatus where
  timestamp : String
  device_name : String
  status : String
deriving Repr, DecidableEq

/-- `generate_device_status`: one entry per configured device,
  `status = off` (default off, no historical diffing). -/
def generate_device_status (ts : String) (devices : List String) :
    List DeviceStatus :=
  devices.map (fun d => ⟨ts, d, "off"⟩)

theorem gen_filter_length (ts name : String) (devices : List String) :
    ((generate_device_status ts devices).filter
        (fun e => e.device_name == name)).length
      = (devices.filter (fun d => d == name)).length := by
  induction devices with
  | nil => rfl
  | cons d rest ih =>
      by_cases hd : (d == name) = true
      · simp only [generate_device_status, List.map_cons, List.filter_cons] at *
        simp [hd, ih]
      · simp only [generate_device_status, List.map_cons, List.filter_cons] at *
        simp at hd
        simp [hd, ih]

theorem filter_length_one_of_nodup (name : String) (devices : List String)
    (hnodup : devices.Nodup) (hmem : name ∈ devices) :
    (devices.filter (fun d => d == name)).length = 1 := by
  induction devices with
  | nil => cases hmem
  | cons d rest ih =>
      rw [List.nodup_cons] at hnodup
      obtain ⟨hnotin, hnd⟩ := hnodup
      by_cases hd : d = name
      · subst hd
        have hzero : (rest.filter (fun x => x == d)).length = 0 := by
          rw [List.length_eq_zero, List.filter_eq_nil_iff]
          intro a ha
          simp only [beq_iff_eq]
          intro he
          subst he
          exact hnotin ha
        simp [List.filter_cons, hzero]
      · have hmem2 : name ∈ rest := by
          rcases List.mem_cons.mp hmem with h1 | h1
          · exact absurd h1.symm hd
          · exact h1
        have hbeq : (d == name) = false := by
          simp [hd]
        simp [List.filter_cons, hbeq]
        exact ih hnd hmem2

/-- C9: the status-sync list has exactly one entry per configured
  device name (the names of the entries are the configured names in
  order), and every status field is on or off (the generator always
  reports off). -/
theorem device_status_shape (ts : String) (devices : List String)
    (hnodup : devices.Nodup) :
    (generate_device_status ts devices).map DeviceStatus.device_name = devices
    ∧ (∀ name ∈ devices,
        ((generate_device_status ts devices).filter
            (fun e => e.device_name == name)).length = 1)
    ∧ (∀ e ∈ generate_device_status ts devices,
        e.status = "on" ∨ e.status = "off") := by
  refine ⟨?_, ?_, ?_⟩
  · clear hnodup
    induction devices with
    | nil => rfl
    | cons d rest ih => simpa [generate_device_status] using ih
  · intro name hname
    rw [gen_filter_length]
    exact filter_length_one_of_nodup name devices hnodup hname
  · intro e he
    simp [generate_device_status] at he
    obtain ⟨d, _, rfl⟩ := he
    exact Or.inr rfl

/-- C9 witness: the default configured device list. -/
theorem device_status_shape_witness :
    (generate_device_status "t0"
        ["living_room_light", "bedroom_fan", "front_door", "garage_door"]).map
        DeviceStatus.device_name
      = ["living_room_light", "bedroom_fan", "front_door", "garage_door"]
    ∧ ((generate_device_status "t0"
        ["living_room_light", "bedroom_fan", "front_door", "garage_door"]).filter
        (fun e => e.device_name == "front_door")).length = 1 := by
  have h := device_status_shape "t0"
    ["living_room_light", "bedroom_fan", "front_door", "garage_door"]
    (by decide)
  exact ⟨h.1, h.2.1 "front_door" (by decide)⟩

/-! ## Security adapter (security_module.get_security_data) -/

/-- A security event:
  `{timestamp, motion_detected, smoke_detected, image_path}`. -/
structure SecurityEvent where
  timestamp : String
  motion_detected : Bool
  smoke_detected : Bool
  image_path : Option String
deriving Repr, DecidableEq

/-- `get_security_data`: smoke is set to False explicitly (no smoke
  sensor in the baseline), motion is the PIR value, and an image is
  captured only on motion with the camera enabled. -/
def get_security_data (pirValue cameraEnabled : Bool) (ts : String)
    (capturedPath : String) : SecurityEvent :=
  let motion := pirValue
  { timestamp := ts
    motion_detected := motion
    smoke_detected := false
    image_path := if motion && cameraEnabled then some capturedPath else none }

/-- Event-type tags persisted by the security loop
  (PiGuardianAll._security_loop): motion when `motion_detected`,
  smoke when `smoke_detected`. -/
def security_event_tags (sec : SecurityEvent) : List String :=
  (if sec.motion_detected then ["motion"] else [])
    ++ (if sec.smoke_detected then ["smoke"] else [])

/-- The alert type `get_security_data` may pass to
  `send_smtp2go_alert` (only on motion with the camera enabled). -/
def security_alert_kind (pirValue cameraEnabled : Bool) : Option String :=
  if pirValue && cameraEnabled then some "Motion Detected" else none

/-- C10: for every input, the security adapter reports
  `smoke_detected = False`; hence the security loop never produces a
  smoke-tagged event from its output, and the only notification the
  adapter can trigger is the motion alert. -/
theorem security_data_never_smoke (pir cam : Bool) (ts path : String) :
    (get_security_data pir cam ts path).smoke_detected = false
    ∧ "smoke" ∉ security_event_tags (get_security_data pir cam ts path)
    ∧ (security_alert_kind pir cam = none
        ∨ security_alert_kind pir cam = some "Motion Detected") := by
  refine ⟨rfl, ?_, ?_⟩
  · cases pir <;> simp [get_security_data, security_event_tags]
  · cases pir <;> cases cam <;> simp [security_alert_kind]

/-- C10 witness: concrete motion event with the camera enabled. -/
theorem security_data_never_smoke_witness :
    (get_security_data true true "t0" "captured_images/motion_1.jpg").smoke_detected
      = false
    ∧ "smoke" ∉ security_event_tags
        (get_security_data true true "t0" "captured_images/motion_1.jpg") := by
  have h := security_data_never_smoke true true "t0" "captured_images/motion_1.jpg"
  exact ⟨h.1, h.2.1⟩

end Milestone2
